import Mathlib

/-!
Verification of `scripts/mqtt-publish-burst.py`.

The script is embedded shallowly:

* `build_message` is translated directly as a pure function from the counter
  and the requested size to either the payload (a `List Char`, one entry per
  byte: every character involved is ASCII) or the `SystemExit` message the
  Python code raises.  Python's `str` on an `int` is modelled by `intStr`.
* The stateful part (`connect_client`, `publish_messages`, `main`) is modelled
  as a function from a configuration and an environment oracle to the ordered
  trace of calls made on the MQTT client (`List Ev`) together with the final
  outcome (`Option PyExc`: `none` means normal return).  The environment
  supplies what the out-of-scope transport would: when (at which 10 ms poll)
  the connect notification arrives and with which result code, the result code
  of each publish acknowledgment, and whether a `KeyboardInterrupt` fires at
  one of the blocking waits.
-/

namespace MqttBurst

/-- One decimal digit character (`0`–`9`), as produced by Python's `str`. -/
def digitChar (n : Nat) : Char := Char.ofNat (48 + n % 10)

/-- Fuel-driven most-significant-digit-first decimal rendering of a `Nat`.
Each step peels off the least significant digit; fuel `n + 1` always
suffices because the value strictly shrinks under division by 10. -/
def natStrCore : Nat → Nat → List Char → List Char
  | 0, _, ds => ds
  | fuel+1, n, ds =>
    let d := digitChar (n % 10)
    let n2 := n / 10
    if n2 = 0 then d :: ds else natStrCore fuel n2 (d :: ds)

/-- Decimal rendering of a `Nat` (`natStr 0 = "0"`). -/
def natStr (n : Nat) : List Char := natStrCore (n + 1) n []

/-- Python's `str` on an `int`: optional minus sign followed by the digits. -/
def intStr (i : Int) : List Char :=
  if i < 0 then '-' :: natStr i.natAbs else natStr i.toNat

/-- `paho.mqtt.client.MQTT_ERR_SUCCESS`. -/
def MQTT_ERR_SUCCESS : Int := 0

/-- The `SystemExit` message raised by `build_message` when the size is too
small: `overhead` is the minimum size that would have worked
(`len(str(counter)) + len(":")`), `got` is the size that was passed. -/
def tooSmallMsg (overhead got : Int) : String :=
  "Message size must be at least " ++ toString overhead ++
    " bytes to include the counter (got " ++ toString got ++ ")."

/-- `build_message` from the script: `<filler><separator><counter>`, exactly
`message_size` bytes, or the `SystemExit` message when the size is too
small. -/
def build_message (counter message_size : Int) : Except String (List Char) :=
  let counter_str := intStr counter
  let separator := ':'
  let overhead : Int := counter_str.length + 1
  if message_size < overhead then
    Except.error (tooSmallMsg overhead message_size)
  else
    let filler_length := (message_size - overhead).toNat
    let filler := List.replicate filler_length 'x'
    Except.ok (filler ++ separator :: counter_str)

/-- The payload `build_message counter message_size` returns on success. -/
def okPayload (counter message_size : Int) : List Char :=
  List.replicate (message_size - ((intStr counter).length + 1)).toNat 'x' ++
    ':' :: intStr counter

/-- The substring after the last occurrence of the separator `':'`
(the whole string when no separator occurs), as a downstream consumer
would recover the counter. -/
def suffixAfterLastSep : List Char → List Char
  | [] => []
  | c :: rest =>
    if ':' ∈ rest then suffixAfterLastSep rest
    else if c = ':' then rest
    else c :: rest

/-- `ensure_inputs` from the script: `some` message when it raises
`SystemExit`, `none` when the inputs pass validation. -/
def ensure_inputs (count : Int) (delay : Rat) (message_size : Int) : Option String :=
  if count ≤ 0 then some "Count must be greater than zero."
  else if delay < 0 then some "Delay must be non-negative."
  else if message_size ≤ 0 then some "Message size must be greater than zero."
  else none

/-- Calls the script makes on the MQTT client object, in order. -/
inductive Ev where
  | loopStart : Ev
  | connectCall : List Char → Int → Ev
  | pollSleep : Ev
  | submit : List Char → List Char → Ev
  | ackWait : Ev
  | delaySleep : Ev
  | disconnect : Ev
  | loopStop : Ev
deriving DecidableEq

/-- How a run of `publish_messages` can terminate abnormally. -/
inductive PyExc where
  | systemExit : String → PyExc
  | keyboardInterrupt : PyExc
deriving DecidableEq

/-- A blocking wait at which an external `KeyboardInterrupt` may fire. -/
inductive IntrPoint where
  | duringConnectPoll : Nat → IntrPoint
  | duringAckWait : Nat → IntrPoint
  | duringDelay : Nat → IntrPoint
deriving DecidableEq

/-- Environment oracle standing for the out-of-scope transport and operating
system: `arrival` is the poll index at which the connect notification is first
observed together with its result code (`none` when it never arrives),
`ackRc` gives the acknowledgment result code of each publish, and `interrupt`
is the blocking wait (if any) at which a `KeyboardInterrupt` fires. -/
structure Env where
  arrival : Option (Nat × Int)
  ackRc : Nat → Int
  interrupt : Option IntrPoint

/-- The validated command-line inputs consumed by the run. -/
structure Config where
  host : List Char
  port : Int
  topic : List Char
  client_id : List Char
  count : Int
  start : Int
  message_size : Int
  delay : Rat

/-- The connect wait ceiling: 5 seconds, in milliseconds. -/
def connectTimeoutMs : Nat := 5000

/-- The connect wait poll interval: `time.sleep(0.01)`, in milliseconds. -/
def pollMs : Nat := 10

/-- Number of polls the bounded connect wait can perform before the 5 second
ceiling elapses. -/
def connWindow : Nat := connectTimeoutMs / pollMs

/-- How many poll sleeps the connect wait performs before it stops polling
(either because the notification was observed or the ceiling elapsed). -/
def connectSleeps : Option (Nat × Int) → Nat
  | none => connWindow
  | some (a, _) => min a connWindow

/-- Whether the `connected` flag is true when the wait loop exits. -/
def connConnected : Option (Nat × Int) → Bool
  | none => false
  | some (a, _) => decide (a ≤ connWindow)

/-- The result code recorded by the `on_connect` callback. -/
def connRc : Option (Nat × Int) → Int
  | none => MQTT_ERR_SUCCESS
  | some (_, rc) => rc

/-- The `SystemExit` message for a connect wait that hits the ceiling. -/
def timeoutMsg : String := "Timed out waiting for MQTT connection."

/-- The `SystemExit` message for a broker-rejected connection. -/
def connRejMsg (rc : Int) : String :=
  "MQTT connection failed with code " ++ toString rc ++ "."

/-- The checks `connect_client` performs after its wait loop exits:
first `not connected` (timeout), then `error is not None` (rejected). -/
def connectFinish (pre sleeps : List Ev) (arrival : Option (Nat × Int)) :
    List Ev × Option PyExc :=
  if connConnected arrival = false then
    (pre ++ sleeps ++ [Ev.loopStop], some (PyExc.systemExit timeoutMsg))
  else if connRc arrival ≠ MQTT_ERR_SUCCESS then
    (pre ++ sleeps ++ [Ev.loopStop],
      some (PyExc.systemExit (connRejMsg (connRc arrival))))
  else
    (pre ++ sleeps, none)

/-- `connect_client` from the script: register the observer, start the
background loop, initiate the connection, poll the `connected` flag every
10 ms for up to 5 s.  An interrupt during one of the poll sleeps aborts the
wait before `connect_client` reaches its own `loop_stop` lines. -/
def connect_client (host : List Char) (port : Int) (env : Env) :
    List Ev × Option PyExc :=
  let pre := [Ev.loopStart, Ev.connectCall host port]
  let nsleeps := connectSleeps env.arrival
  match env.interrupt with
  | some (IntrPoint.duringConnectPoll k) =>
    if k < nsleeps then
      (pre ++ List.replicate k Ev.pollSleep, some PyExc.keyboardInterrupt)
    else
      connectFinish pre (List.replicate nsleeps Ev.pollSleep) env.arrival
  | _ =>
    connectFinish pre (List.replicate nsleeps Ev.pollSleep) env.arrival

/-- The `SystemExit` message for a failed publish acknowledgment. -/
def pubFailMsg (rc : Int) : String :=
  "Publish failed with code " ++ toString rc ++ "."

/-- The publish loop of `publish_messages`: iteration `i` builds the payload
for `counter`, submits it, blocks on the acknowledgment, checks its result
code, and optionally sleeps before the next iteration.  The `Nat` argument is
the number of remaining iterations of `range(args.count)`. -/
def burstLoop (topic : List Char) (message_size : Int) (delay : Rat)
    (count : Int) (env : Env) : Nat → Nat → Int → List Ev × Option PyExc
  | 0, _, _ => ([], none)
  | r+1, i, counter =>
    match build_message counter message_size with
    | Except.error m => ([], some (PyExc.systemExit m))
    | Except.ok payload =>
      if env.interrupt = some (IntrPoint.duringAckWait i) then
        ([Ev.submit topic payload, Ev.ackWait], some PyExc.keyboardInterrupt)
      else if env.ackRc i ≠ MQTT_ERR_SUCCESS then
        ([Ev.submit topic payload, Ev.ackWait],
          some (PyExc.systemExit (pubFailMsg (env.ackRc i))))
      else if delay > 0 ∧ (i : Int) ≠ count - 1 then
        if env.interrupt = some (IntrPoint.duringDelay i) then
          ([Ev.submit topic payload, Ev.ackWait], some PyExc.keyboardInterrupt)
        else
          let tail := burstLoop topic message_size delay count env r (i+1) (counter+1)
          (Ev.submit topic payload :: Ev.ackWait :: Ev.delaySleep :: tail.1, tail.2)
      else
        let tail := burstLoop topic message_size delay count env r (i+1) (counter+1)
        (Ev.submit topic payload :: Ev.ackWait :: tail.1, tail.2)

/-- The body of the `try` block in `publish_messages`: connect, then run the
publish loop over all `count` iterations starting at `args.start`. -/
def runBody (cfg : Config) (env : Env) : List Ev × Option PyExc :=
  match connect_client cfg.host cfg.port env with
  | (evs, some e) => (evs, some e)
  | (evs, none) =>
    let lp := burstLoop cfg.topic cfg.message_size cfg.delay cfg.count env
      cfg.count.toNat 0 cfg.start
    (evs ++ lp.1, lp.2)

/-- `publish_messages` from the script: validate, create the client, run the
`try` body, and in the `finally` block disconnect and stop the background
loop.  When validation fails the client is never created, so no client call
is made at all. -/
def publish_messages (cfg : Config) (env : Env) : List Ev × Option PyExc :=
  match ensure_inputs cfg.count cfg.delay cfg.message_size with
  | some m => ([], some (PyExc.systemExit m))
  | none =>
    let body := runBody cfg env
    (body.1 ++ [Ev.disconnect, Ev.loopStop], body.2)

/-- The `SystemExit` message `main` raises for a `KeyboardInterrupt`. -/
def interruptedMsg : String := "Interrupted"

/-- `main` from the script: run `publish_messages` and convert a
`KeyboardInterrupt` into `SystemExit("Interrupted")`.  The outcome is the
`SystemExit` message (`none` for a clean exit). -/
def main (cfg : Config) (env : Env) : List Ev × Option String :=
  let r := publish_messages cfg env
  match r.2 with
  | none => (r.1, none)
  | some (PyExc.systemExit m) => (r.1, some m)
  | some PyExc.keyboardInterrupt => (r.1, some interruptedMsg)

/-- Number of occurrences of an event in a trace. -/
def countEv (e : Ev) : List Ev → Nat
  | [] => 0
  | x :: t => (if x = e then 1 else 0) + countEv e t

/-- The subtrace of publish submissions and acknowledgment waits. -/
def pubTrace : List Ev → List Ev
  | [] => []
  | Ev.submit a p :: rest => Ev.submit a p :: pubTrace rest
  | Ev.ackWait :: rest => Ev.ackWait :: pubTrace rest
  | _ :: rest => pubTrace rest

/-- The payloads submitted in a trace, in order. -/
def submittedPayloads : List Ev → List (List Char)
  | [] => []
  | Ev.submit _ p :: rest => p :: submittedPayloads rest
  | _ :: rest => submittedPayloads rest

/-- The expected submit/ack alternation of a fully successful burst of `n`
messages starting at `counter`. -/
def burstPattern (topic : List Char) (message_size : Int) : Nat → Int → List Ev
  | 0, _ => []
  | n+1, counter =>
    Ev.submit topic (okPayload counter message_size) :: Ev.ackWait ::
      burstPattern topic message_size n (counter + 1)

/-- The payloads of `n` consecutive counters starting at `counter`. -/
def payloadSeq (message_size : Int) : Nat → Int → List (List Char)
  | 0, _ => []
  | n+1, counter =>
    okPayload counter message_size :: payloadSeq message_size n (counter + 1)

/-! ### Concrete configurations and environments used for witnesses -/

/-- A sample host string. -/
def hostW : List Char := ['h', 'o', 's', 't']

/-- A sample topic string. -/
def topicW : List Char := ['t', 'o', 'p']

/-- A sample client identifier. -/
def clientW : List Char := ['p', 'u', 'b', 'A']

/-- A configuration with the given count, start and message size, zero delay. -/
def mkCfg (count start message_size : Int) : Config :=
  { host := hostW, port := 1883, topic := topicW, client_id := clientW,
    count := count, start := start, message_size := message_size, delay := 0 }

/-- Connect notification arrives immediately with success; every publish is
acknowledged successfully; no interrupt. -/
def envAllOk : Env :=
  { arrival := some (0, 0), ackRc := fun _ => 0, interrupt := none }

/-- The connect notification never arrives; no interrupt. -/
def envNoConn : Env :=
  { arrival := none, ackRc := fun _ => 0, interrupt := none }

/-- Every publish acknowledgment reports result code 1. -/
def envPubFail : Env :=
  { arrival := some (0, 0), ackRc := fun _ => 1, interrupt := none }

/-- The first publish succeeds, every later one fails with result code 1. -/
def envAckFail1 : Env :=
  { arrival := some (0, 0), ackRc := fun j => if j = 0 then 0 else 1,
    interrupt := none }

/-- A `KeyboardInterrupt` fires while waiting for the first publish
acknowledgment. -/
def envKI : Env :=
  { arrival := some (0, 0), ackRc := fun _ => 0,
    interrupt := some (IntrPoint.duringAckWait 0) }

/-! ### Basic facts about the decimal rendering and the payload shape -/

theorem digitChar_ne_colon (n : Nat) : digitChar n ≠ ':' := by
  have h : n % 10 < 10 := Nat.mod_lt _ (by norm_num)
  have hall : ∀ m, m < 10 → Char.ofNat (48 + m) ≠ ':' := by decide
  simpa [digitChar] using hall (n % 10) h

theorem colon_notMem_natStrCore :
    ∀ fuel n ds, ':' ∉ ds → ':' ∉ natStrCore fuel n ds := by
  intro fuel
  induction fuel with
  | zero => intro n ds h; simpa [natStrCore] using h
  | succ f ih =>
    intro n ds h
    simp only [natStrCore]
    split
    · simp [List.mem_cons, h, (digitChar_ne_colon (n % 10)).symm]
    · exact ih _ _ (by simp [List.mem_cons, h, (digitChar_ne_colon (n % 10)).symm])

theorem colon_notMem_natStr (n : Nat) : ':' ∉ natStr n :=
  colon_notMem_natStrCore _ _ _ (by simp)

theorem colon_notMem_intStr (i : Int) : ':' ∉ intStr i := by
  unfold intStr
  split
  · simp [List.mem_cons, colon_notMem_natStr]
  · exact colon_notMem_natStr _

theorem suffixAfterLastSep_append (p t : List Char) (h : ':' ∉ t) :
    suffixAfterLastSep (p ++ ':' :: t) = t := by
  induction p with
  | nil => simp [suffixAfterLastSep, h]
  | cons a p ih =>
    have hm : ':' ∈ p ++ ':' :: t := by simp
    simp [suffixAfterLastSep, hm, ih]

theorem okPayload_suffix (c s : Int) :
    suffixAfterLastSep (okPayload c s) = intStr c :=
  suffixAfterLastSep_append _ _ (colon_notMem_intStr c)

theorem okPayload_length (c s : Int) (h : ((intStr c).length : Int) + 1 ≤ s) :
    ((okPayload c s).length : Int) = s := by
  simp only [okPayload, List.length_append, List.length_replicate,
    List.length_cons]
  omega

theorem build_message_ok (c s : Int) (h : ((intStr c).length : Int) + 1 ≤ s) :
    build_message c s = Except.ok (okPayload c s) := by
  have hn : ¬ (s < ((intStr c).length : Int) + 1) := by omega
  simp [build_message, okPayload, hn]

theorem build_message_err (c s : Int) (h : s < ((intStr c).length : Int) + 1) :
    build_message c s =
      Except.error (tooSmallMsg (((intStr c).length : Int) + 1) s) := by
  simp [build_message, h]

theorem build_message_ok_inv (c s : Int) (p : List Char)
    (h : build_message c s = Except.ok p) :
    p = okPayload c s ∧ ((intStr c).length : Int) + 1 ≤ s := by
  by_cases hs : s < ((intStr c).length : Int) + 1
  · rw [build_message_err c s hs] at h
    exact absurd h (by simp)
  · rw [build_message_ok c s (by omega)] at h
    exact ⟨(Except.ok.inj h).symm, by omega⟩

/-! ### Trace bookkeeping -/

theorem countEv_append (e : Ev) (a b : List Ev) :
    countEv e (a ++ b) = countEv e a + countEv e b := by
  induction a with
  | nil => simp [countEv]
  | cons x a ih => simp [countEv, ih]; omega

theorem countEv_replicate (e x : Ev) (n : Nat) :
    countEv e (List.replicate n x) = if x = e then n else 0 := by
  induction n with
  | zero => simp [countEv]
  | succ n ih =>
    simp only [List.replicate_succ, countEv, ih]
    split <;> omega

theorem countEv_eq_zero_of_notMem (e : Ev) (t : List Ev) (h : e ∉ t) :
    countEv e t = 0 := by
  induction t with
  | nil => rfl
  | cons x t ih =>
    simp only [List.mem_cons, not_or] at h
    have hx : ¬ (x = e) := fun hh => h.1 hh.symm
    simp [countEv, ih h.2, hx]

theorem pubTrace_append (a b : List Ev) :
    pubTrace (a ++ b) = pubTrace a ++ pubTrace b := by
  induction a with
  | nil => rfl
  | cons x a ih => cases x <;> simp [pubTrace, ih]

theorem submittedPayloads_append (a b : List Ev) :
    submittedPayloads (a ++ b) =
      submittedPayloads a ++ submittedPayloads b := by
  induction a with
  | nil => rfl
  | cons x a ih => cases x <;> simp [submittedPayloads, ih]

theorem pubTrace_replicate_pollSleep (n : Nat) :
    pubTrace (List.replicate n Ev.pollSleep) = [] := by
  induction n with
  | zero => rfl
  | succ n ih => simp [List.replicate_succ, pubTrace, ih]

theorem submittedPayloads_replicate_pollSleep (n : Nat) :
    submittedPayloads (List.replicate n Ev.pollSleep) = [] := by
  induction n with
  | zero => rfl
  | succ n ih => simp [List.replicate_succ, submittedPayloads, ih]

/-! ### Shape of the connect phase -/

theorem connectFinish_cases (pre sleeps : List Ev) (arrival : Option (Nat × Int)) :
    connectFinish pre sleeps arrival =
        (pre ++ sleeps ++ [Ev.loopStop], some (PyExc.systemExit timeoutMsg)) ∨
    connectFinish pre sleeps arrival =
        (pre ++ sleeps ++ [Ev.loopStop],
          some (PyExc.systemExit (connRejMsg (connRc arrival)))) ∨
    connectFinish pre sleeps arrival = (pre ++ sleeps, none) := by
  unfold connectFinish
  split
  · exact Or.inl rfl
  · split
    · exact Or.inr (Or.inl rfl)
    · exact Or.inr (Or.inr rfl)

theorem connect_client_cases (host : List Char) (port : Int) (env : Env) :
    (∃ k, connect_client host port env =
        ([Ev.loopStart, Ev.connectCall host port] ++ List.replicate k Ev.pollSleep,
          some PyExc.keyboardInterrupt)) ∨
    connect_client host port env =
      connectFinish [Ev.loopStart, Ev.connectCall host port]
        (List.replicate (connectSleeps env.arrival) Ev.pollSleep) env.arrival := by
  unfold connect_client
  rcases hI : env.interrupt with _ | p
  · exact Or.inr rfl
  · cases p with
    | duringConnectPoll k =>
      simp only []
      split
      · exact Or.inl ⟨k, rfl⟩
      · exact Or.inr rfl
    | duringAckWait i => exact Or.inr rfl
    | duringDelay i => exact Or.inr rfl

theorem connect_client_success (host : List Char) (port : Int) (env : Env)
    (hc : connConnected env.arrival = true)
    (hrc : connRc env.arrival = MQTT_ERR_SUCCESS)
    (hint : env.interrupt = none) :
    connect_client host port env =
      ([Ev.loopStart, Ev.connectCall host port] ++
        List.replicate (connectSleeps env.arrival) Ev.pollSleep, none) := by
  simp [connect_client, hint, connectFinish, hc, hrc]

theorem connect_client_timeout (host : List Char) (port : Int) (env : Env)
    (harr : env.arrival = none) (hint : env.interrupt = none) :
    connect_client host port env =
      ([Ev.loopStart, Ev.connectCall host port] ++
          List.replicate connWindow Ev.pollSleep ++ [Ev.loopStop],
        some (PyExc.systemExit timeoutMsg)) := by
  simp [connect_client, hint, connectFinish, connectSleeps, connConnected, harr]

theorem pubTrace_connect (host : List Char) (port : Int) (env : Env) :
    pubTrace (connect_client host port env).1 = [] := by
  rcases connect_client_cases host port env with ⟨k, hk⟩ | hf
  · simp [hk, pubTrace_append, pubTrace, pubTrace_replicate_pollSleep]
  · rcases connectFinish_cases [Ev.loopStart, Ev.connectCall host port]
        (List.replicate (connectSleeps env.arrival) Ev.pollSleep) env.arrival with
      h | h | h <;>
    · rw [hf, h]
      simp [pubTrace_append, pubTrace, pubTrace_replicate_pollSleep]

theorem submittedPayloads_connect (host : List Char) (port : Int) (env : Env) :
    submittedPayloads (connect_client host port env).1 = [] := by
  rcases connect_client_cases host port env with ⟨k, hk⟩ | hf
  · simp [hk, submittedPayloads_append, submittedPayloads,
      submittedPayloads_replicate_pollSleep]
  · rcases connectFinish_cases [Ev.loopStart, Ev.connectCall host port]
        (List.replicate (connectSleeps env.arrival) Ev.pollSleep) env.arrival with
      h | h | h <;>
    · rw [hf, h]
      simp [submittedPayloads_append, submittedPayloads,
        submittedPayloads_replicate_pollSleep]

theorem disconnect_notMem_connect (host : List Char) (port : Int) (env : Env) :
    Ev.disconnect ∉ (connect_client host port env).1 := by
  rcases connect_client_cases host port env with ⟨k, hk⟩ | hf
  · simp [hk, List.mem_replicate]
  · rcases connectFinish_cases [Ev.loopStart, Ev.connectCall host port]
        (List.replicate (connectSleeps env.arrival) Ev.pollSleep) env.arrival with
      h | h | h <;> simp [hf, h, List.mem_replicate]

theorem countEv_loopStop_connect_le (host : List Char) (port : Int) (env : Env) :
    countEv Ev.loopStop (connect_client host port env).1 ≤ 1 := by
  rcases connect_client_cases host port env with ⟨k, hk⟩ | hf
  · simp [hk, countEv_append, countEv, countEv_replicate]
  · rcases connectFinish_cases [Ev.loopStart, Ev.connectCall host port]
        (List.replicate (connectSleeps env.arrival) Ev.pollSleep) env.arrival with
      h | h | h <;> simp [hf, h, countEv_append, countEv, countEv_replicate]

theorem countEv_loopStop_connect_eq_one_iff (host : List Char) (port : Int)
    (env : Env) :
    countEv Ev.loopStop (connect_client host port env).1 = 1 ↔
      ∃ m, (connect_client host port env).2 = some (PyExc.systemExit m) := by
  rcases connect_client_cases host port env with ⟨k, hk⟩ | hf
  · simp [hk, countEv_append, countEv, countEv_replicate]
  · rcases connectFinish_cases [Ev.loopStart, Ev.connectCall host port]
        (List.replicate (connectSleeps env.arrival) Ev.pollSleep) env.arrival with
      h | h | h <;> simp [hf, h, countEv_append, countEv, countEv_replicate]

theorem connect_client_ki_no_stop (host : List Char) (port : Int) (env : Env)
    (h : (connect_client host port env).2 = some PyExc.keyboardInterrupt) :
    countEv Ev.loopStop (connect_client host port env).1 = 0 := by
  rcases connect_client_cases host port env with ⟨k, hk⟩ | hf
  · simp [hk, countEv_append, countEv, countEv_replicate]
  · rcases connectFinish_cases [Ev.loopStart, Ev.connectCall host port]
        (List.replicate (connectSleeps env.arrival) Ev.pollSleep) env.arrival with
      hc | hc | hc <;> rw [hf, hc] at h <;> simp at h

theorem connect_client_none_no_stop (host : List Char) (port : Int) (env : Env)
    (h : (connect_client host port env).2 = none) :
    countEv Ev.loopStop (connect_client host port env).1 = 0 := by
  rcases connect_client_cases host port env with ⟨k, hk⟩ | hf
  · rw [hk] at h; simp at h
  · rcases connectFinish_cases [Ev.loopStart, Ev.connectCall host port]
        (List.replicate (connectSleeps env.arrival) Ev.pollSleep) env.arrival with
      hc | hc | hc
    · rw [hf, hc] at h; simp at h
    · rw [hf, hc] at h; simp at h
    · simp [hf, hc, countEv_append, countEv, countEv_replicate]

/-! ### Shape of the publish loop -/

theorem burstLoop_events (topic : List Char) (ms : Int) (delay : Rat)
    (count : Int) (env : Env) :
    ∀ r i counter e, e ∈ (burstLoop topic ms delay count env r i counter).1 →
      (∃ p, e = Ev.submit topic p) ∨ e = Ev.ackWait ∨ e = Ev.delaySleep := by
  intro r
  induction r with
  | zero => intro i counter e he; simp [burstLoop] at he
  | succ r ih =>
    intro i counter e he
    rcases hbm : build_message counter ms with m | payload
    · simp [burstLoop, hbm] at he
    · simp only [burstLoop, hbm] at he
      by_cases h1 : env.interrupt = some (IntrPoint.duringAckWait i)
      · simp [h1] at he
        rcases he with he | he
        · exact Or.inl ⟨payload, he⟩
        · exact Or.inr (Or.inl he)
      · by_cases h2 : env.ackRc i = MQTT_ERR_SUCCESS
        · by_cases h3 : delay > 0 ∧ (i : Int) ≠ count - 1
          · by_cases h4 : env.interrupt = some (IntrPoint.duringDelay i)
            · simp [h1, h2, h3, h4] at he
              rcases he with he | he
              · exact Or.inl ⟨payload, he⟩
              · exact Or.inr (Or.inl he)
            · simp [h1, h2, h3, h4] at he
              rcases he with he | he | he | he
              · exact Or.inl ⟨payload, he⟩
              · exact Or.inr (Or.inl he)
              · exact Or.inr (Or.inr he)
              · exact ih (i+1) (counter+1) e he
          · simp [h1, h2, h3] at he
            rcases he with he | he | he
            · exact Or.inl ⟨payload, he⟩
            · exact Or.inr (Or.inl he)
            · exact ih (i+1) (counter+1) e he
        · simp [h1, h2] at he
          rcases he with he | he
          · exact Or.inl ⟨payload, he⟩
          · exact Or.inr (Or.inl he)

theorem burstLoop_disconnect_notMem (topic : List Char) (ms : Int) (delay : Rat)
    (count : Int) (env : Env) (r i : Nat) (counter : Int) :
    Ev.disconnect ∉ (burstLoop topic ms delay count env r i counter).1 := by
  intro h
  rcases burstLoop_events topic ms delay count env r i counter _ h with
    ⟨p, hp⟩ | hp | hp <;> simp at hp

theorem burstLoop_loopStop_notMem (topic : List Char) (ms : Int) (delay : Rat)
    (count : Int) (env : Env) (r i : Nat) (counter : Int) :
    Ev.loopStop ∉ (burstLoop topic ms delay count env r i counter).1 := by
  intro h
  rcases burstLoop_events topic ms delay count env r i counter _ h with
    ⟨p, hp⟩ | hp | hp <;> simp at hp

theorem burstLoop_build_fail (topic : List Char) (ms : Int) (delay : Rat)
    (count : Int) (env : Env) (r i : Nat) (counter : Int)
    (h : ms < ((intStr counter).length : Int) + 1) :
    burstLoop topic ms delay count env (r+1) i counter =
      ([], some (PyExc.systemExit
        (tooSmallMsg (((intStr counter).length : Int) + 1) ms))) := by
  simp [burstLoop, build_message_err counter ms h]

theorem burstLoop_success (topic : List Char) (ms : Int) (delay : Rat)
    (count : Int) (env : Env) :
    ∀ r i counter, (burstLoop topic ms delay count env r i counter).2 = none →
      pubTrace (burstLoop topic ms delay count env r i counter).1 =
        burstPattern topic ms r counter ∧
      submittedPayloads (burstLoop topic ms delay count env r i counter).1 =
        payloadSeq ms r counter := by
  intro r
  induction r with
  | zero => intro i counter _; simp [burstLoop, burstPattern, payloadSeq,
      pubTrace, submittedPayloads]
  | succ r ih =>
    intro i counter h
    rcases hbm : build_message counter ms with m | payload
    · simp [burstLoop, hbm] at h
    · have hpay := (build_message_ok_inv counter ms payload hbm).1
      simp only [burstLoop, hbm] at h ⊢
      by_cases h1 : env.interrupt = some (IntrPoint.duringAckWait i)
      · simp [h1] at h
      · by_cases h2 : env.ackRc i = MQTT_ERR_SUCCESS
        · by_cases h3 : delay > 0 ∧ (i : Int) ≠ count - 1
          · by_cases h4 : env.interrupt = some (IntrPoint.duringDelay i)
            · simp [h1, h2, h3, h4] at h
            · simp [h1, h2, h3, h4] at h ⊢
              have := ih (i+1) (counter+1) h
              simp [pubTrace, submittedPayloads, this.1, this.2, hpay,
                burstPattern, payloadSeq]
          · simp [h1, h2, h3] at h ⊢
            have := ih (i+1) (counter+1) h
            simp [pubTrace, submittedPayloads, this.1, this.2, hpay,
              burstPattern, payloadSeq]
        · simp [h1, h2] at h

theorem burstLoop_pubfail (topic : List Char) (ms : Int) (delay : Rat)
    (count : Int) (env : Env) (hint : env.interrupt = none) :
    ∀ k r i counter, k < r →
      (∀ j : Nat, j ≤ k → ((intStr (counter + j)).length : Int) + 1 ≤ ms) →
      (∀ j : Nat, j < k → env.ackRc (i + j) = MQTT_ERR_SUCCESS) →
      env.ackRc (i + k) ≠ MQTT_ERR_SUCCESS →
      (burstLoop topic ms delay count env r i counter).2 =
        some (PyExc.systemExit (pubFailMsg (env.ackRc (i + k)))) ∧
      submittedPayloads (burstLoop topic ms delay count env r i counter).1 =
        payloadSeq ms (k+1) counter := by
  intro k
  induction k with
  | zero =>
    intro r i counter hr hfits hok hfail
    obtain ⟨r2, rfl⟩ : ∃ r2, r = r2 + 1 := ⟨r - 1, by omega⟩
    have hb : build_message counter ms = Except.ok (okPayload counter ms) :=
      build_message_ok counter ms (by simpa using hfits 0 (le_refl 0))
    have h1 : env.interrupt ≠ some (IntrPoint.duringAckWait i) := by simp [hint]
    have hfail2 : env.ackRc i ≠ MQTT_ERR_SUCCESS := by simpa using hfail
    simp [burstLoop, hb, h1, hfail2, submittedPayloads, payloadSeq]
  | succ k ihk =>
    intro r i counter hr hfits hok hfail
    obtain ⟨r2, rfl⟩ : ∃ r2, r = r2 + 1 := ⟨r - 1, by omega⟩
    have hb : build_message counter ms = Except.ok (okPayload counter ms) :=
      build_message_ok counter ms (by simpa using hfits 0 (by omega))
    have h1 : env.interrupt ≠ some (IntrPoint.duringAckWait i) := by simp [hint]
    have h4 : env.interrupt ≠ some (IntrPoint.duringDelay i) := by simp [hint]
    have h2 : env.ackRc i = MQTT_ERR_SUCCESS := by simpa using hok 0 (by omega)
    have hfits2 : ∀ j : Nat, j ≤ k →
        ((intStr (counter + 1 + j)).length : Int) + 1 ≤ ms := by
      intro j hj
      have hthis := hfits (j+1) (by omega)
      push_cast at hthis
      have he : counter + ((j : Int) + 1) = counter + 1 + j := by ring
      rwa [he] at hthis
    have hok2 : ∀ j : Nat, j < k → env.ackRc (i + 1 + j) = MQTT_ERR_SUCCESS := by
      intro j hj
      have hthis := hok (j+1) (by omega)
      rwa [show i + (j+1) = i + 1 + j from by omega] at hthis
    have hfail2 : env.ackRc (i + 1 + k) ≠ MQTT_ERR_SUCCESS := by
      rwa [show i + 1 + k = i + (k+1) from by omega]
    have hrec := ihk r2 (i+1) (counter+1) (by omega) hfits2 hok2 hfail2
    rw [show i + (k+1) = i + 1 + k from by omega]
    by_cases h3 : delay > 0 ∧ (i : Int) ≠ count - 1
    · constructor
      · simp [burstLoop, hb, h1, h2, h3, h4, hrec.1]
      · simp [burstLoop, hb, h1, h2, h3, h4, submittedPayloads, hrec.2,
          payloadSeq]
    · constructor
      · simp [burstLoop, hb, h1, h2, h3, hrec.1]
      · simp [burstLoop, hb, h1, h2, h3, submittedPayloads, hrec.2, payloadSeq]

theorem burstLoop_buildfail_at (topic : List Char) (ms : Int) (delay : Rat)
    (count : Int) (env : Env) (hint : env.interrupt = none) :
    ∀ k r i counter, k < r →
      (∀ j : Nat, j < k → ((intStr (counter + j)).length : Int) + 1 ≤ ms) →
      (∀ j : Nat, j < k → env.ackRc (i + j) = MQTT_ERR_SUCCESS) →
      ms < ((intStr (counter + k)).length : Int) + 1 →
      (burstLoop topic ms delay count env r i counter).2 =
        some (PyExc.systemExit
          (tooSmallMsg (((intStr (counter + k)).length : Int) + 1) ms)) ∧
      submittedPayloads (burstLoop topic ms delay count env r i counter).1 =
        payloadSeq ms k counter := by
  intro k
  induction k with
  | zero =>
    intro r i counter hr hfits hok hbig
    obtain ⟨r2, rfl⟩ : ∃ r2, r = r2 + 1 := ⟨r - 1, by omega⟩
    have hbig2 : ms < ((intStr counter).length : Int) + 1 := by simpa using hbig
    rw [burstLoop_build_fail topic ms delay count env r2 i counter hbig2]
    simp [submittedPayloads, payloadSeq]
  | succ k ihk =>
    intro r i counter hr hfits hok hbig
    obtain ⟨r2, rfl⟩ : ∃ r2, r = r2 + 1 := ⟨r - 1, by omega⟩
    have hb : build_message counter ms = Except.ok (okPayload counter ms) :=
      build_message_ok counter ms (by simpa using hfits 0 (by omega))
    have h1 : env.interrupt ≠ some (IntrPoint.duringAckWait i) := by simp [hint]
    have h4 : env.interrupt ≠ some (IntrPoint.duringDelay i) := by simp [hint]
    have h2 : env.ackRc i = MQTT_ERR_SUCCESS := by simpa using hok 0 (by omega)
    have hfits2 : ∀ j : Nat, j < k →
        ((intStr (counter + 1 + j)).length : Int) + 1 ≤ ms := by
      intro j hj
      have hthis := hfits (j+1) (by omega)
      push_cast at hthis
      have he : counter + ((j : Int) + 1) = counter + 1 + j := by ring
      rwa [he] at hthis
    have hok2 : ∀ j : Nat, j < k → env.ackRc (i + 1 + j) = MQTT_ERR_SUCCESS := by
      intro j hj
      have hthis := hok (j+1) (by omega)
      rwa [show i + (j+1) = i + 1 + j from by omega] at hthis
    have hbig2 : ms < ((intStr (counter + 1 + k)).length : Int) + 1 := by
      have he : counter + ((k : Nat) + 1 : Nat) = counter + 1 + k := by
        push_cast; ring
      rwa [he] at hbig
    have hrec := ihk r2 (i+1) (counter+1) (by omega) hfits2 hok2 hbig2
    have he2 : counter + ((k : Nat) + 1 : Nat) = counter + 1 + k := by
      push_cast; ring
    rw [he2]
    by_cases h3 : delay > 0 ∧ (i : Int) ≠ count - 1
    · constructor
      · simp [burstLoop, hb, h1, h2, h3, h4, hrec.1]
      · simp [burstLoop, hb, h1, h2, h3, h4, submittedPayloads, hrec.2,
          payloadSeq]
    · constructor
      · simp [burstLoop, hb, h1, h2, h3, hrec.1]
      · simp [burstLoop, hb, h1, h2, h3, submittedPayloads, hrec.2, payloadSeq]

/-! ### Run-level structure -/

theorem ensure_inputs_none_pos (count : Int) (delay : Rat) (message_size : Int)
    (hens : ensure_inputs count delay message_size = none) : 0 < count := by
  by_contra h
  unfold ensure_inputs at hens
  rw [if_pos (by omega : count ≤ 0)] at hens
  exact Option.some_ne_none _ hens

theorem publish_messages_split (cfg : Config) (env : Env)
    (hens : ensure_inputs cfg.count cfg.delay cfg.message_size = none) :
    publish_messages cfg env =
      ((runBody cfg env).1 ++ [Ev.disconnect, Ev.loopStop],
        (runBody cfg env).2) := by
  simp [publish_messages, hens]

theorem runBody_connect_fail (cfg : Config) (env : Env) (e : PyExc)
    (h : (connect_client cfg.host cfg.port env).2 = some e) :
    runBody cfg env = connect_client cfg.host cfg.port env := by
  unfold runBody
  rcases hcc : connect_client cfg.host cfg.port env with ⟨evs, oe⟩
  rcases oe with _ | e2
  · rw [hcc] at h; simp at h
  · rfl

theorem runBody_connect_ok (cfg : Config) (env : Env)
    (h : (connect_client cfg.host cfg.port env).2 = none) :
    runBody cfg env =
      ((connect_client cfg.host cfg.port env).1 ++
          (burstLoop cfg.topic cfg.message_size cfg.delay cfg.count env
            cfg.count.toNat 0 cfg.start).1,
        (burstLoop cfg.topic cfg.message_size cfg.delay cfg.count env
          cfg.count.toNat 0 cfg.start).2) := by
  unfold runBody
  rcases hcc : connect_client cfg.host cfg.port env with ⟨evs, oe⟩
  rcases oe with _ | e2
  · rfl
  · rw [hcc] at h; simp at h

theorem main_fst (cfg : Config) (env : Env) :
    (main cfg env).1 = (publish_messages cfg env).1 := by
  cases h : (publish_messages cfg env).2 with
  | none => simp [main, h]
  | some e => cases e <;> simp [main, h]

theorem main_systemExit (cfg : Config) (env : Env) (m : String)
    (h : (publish_messages cfg env).2 = some (PyExc.systemExit m)) :
    (main cfg env).2 = some m := by
  simp [main, h]

theorem main_ki (cfg : Config) (env : Env)
    (h : (publish_messages cfg env).2 = some PyExc.keyboardInterrupt) :
    (main cfg env).2 = some interruptedMsg := by
  simp [main, h]

/-! ### The error messages are pairwise distinguishable -/

theorem interruptedMsg_ne_pubFailMsg (rc : Int) :
    interruptedMsg ≠ pubFailMsg rc := by
  intro h
  have hl := congrArg String.length h
  rw [pubFailMsg, String.length_append, String.length_append] at hl
  have h1 : interruptedMsg.length = 11 := rfl
  have h2 : ("Publish failed with code " : String).length = 25 := rfl
  have h3 : ("." : String).length = 1 := rfl
  omega

theorem interruptedMsg_ne_connRejMsg (rc : Int) :
    interruptedMsg ≠ connRejMsg rc := by
  intro h
  have hl := congrArg String.length h
  rw [connRejMsg, String.length_append, String.length_append] at hl
  have h1 : interruptedMsg.length = 11 := rfl
  have h2 : ("MQTT connection failed with code " : String).length = 33 := rfl
  have h3 : ("." : String).length = 1 := rfl
  omega

theorem interruptedMsg_ne_timeoutMsg : interruptedMsg ≠ timeoutMsg := by
  decide

theorem publish_messages_snd (cfg : Config) (env : Env)
    (hens : ensure_inputs cfg.count cfg.delay cfg.message_size = none) :
    (publish_messages cfg env).2 = (runBody cfg env).2 := by
  rw [publish_messages_split cfg env hens]

theorem runBody_snd_ok (cfg : Config) (env : Env)
    (h : (connect_client cfg.host cfg.port env).2 = none) :
    (runBody cfg env).2 =
      (burstLoop cfg.topic cfg.message_size cfg.delay cfg.count env
        cfg.count.toNat 0 cfg.start).2 := by
  rw [runBody_connect_ok cfg env h]

/-! ### The claims -/

/-- C1: for every run of `publish_messages` that completes successfully with
`count = N` and starting counter `start`, the submission/acknowledgment
subtrace is exactly `submit(start), ack, submit(start+1), ack, …,
submit(start+N-1), ack`: exactly `N` submissions, in strictly increasing
counter order (each payload decodes to its counter via the suffix after the
last separator), and each submission is acknowledged before the next one is
submitted — no overlapping in-flight publishes. -/
theorem c1_publish_success_order (cfg : Config) (env : Env)
    (h : (publish_messages cfg env).2 = none) :
    pubTrace (publish_messages cfg env).1 =
      burstPattern cfg.topic cfg.message_size cfg.count.toNat cfg.start ∧
    ∀ i : Nat, i < cfg.count.toNat →
      suffixAfterLastSep (okPayload (cfg.start + i) cfg.message_size) =
        intStr (cfg.start + i) := by
  refine ⟨?_, fun i _ => okPayload_suffix _ _⟩
  rcases hens : ensure_inputs cfg.count cfg.delay cfg.message_size with _ | m
  · have hsplit := publish_messages_split cfg env hens
    have h2 : (runBody cfg env).2 = none := by rw [hsplit] at h; exact h
    rcases hc2 : (connect_client cfg.host cfg.port env).2 with _ | e
    · have hrb := runBody_connect_ok cfg env hc2
      have h3 : (burstLoop cfg.topic cfg.message_size cfg.delay cfg.count env
          cfg.count.toNat 0 cfg.start).2 = none := by
        rw [hrb] at h2; exact h2
      have hl := burstLoop_success cfg.topic cfg.message_size cfg.delay
        cfg.count env cfg.count.toNat 0 cfg.start h3
      rw [hsplit, hrb]
      simp [pubTrace_append, pubTrace_connect, pubTrace, hl.1]
    · have hrb := runBody_connect_fail cfg env e hc2
      rw [hrb, hc2] at h2
      exact absurd h2 (by simp)
  · simp [publish_messages, hens] at h

/-- C1 witness: a concrete fully successful run with `count = 2`,
`start = 1`, `message_size = 3`. -/
theorem c1_witness :
    (publish_messages (mkCfg 2 1 3) envAllOk).2 = none ∧
    pubTrace (publish_messages (mkCfg 2 1 3) envAllOk).1 =
      burstPattern topicW 3 2 1 :=
  ⟨by decide,
    (c1_publish_success_order (mkCfg 2 1 3) envAllOk (by decide)).1⟩

/-- C2: for every counter `c ≥ 0` and every size
`s ≥ len(decimal(c)) + 1`, `build_message c s` succeeds with a payload of
exactly `s` bytes whose substring after the last `':'` is the decimal
representation of `c`. -/
theorem c2_build_message_nonneg (c s : Int) (hc : 0 ≤ c)
    (hs : ((intStr c).length : Int) + 1 ≤ s) :
    build_message c s = Except.ok (okPayload c s) ∧
    ((okPayload c s).length : Int) = s ∧
    suffixAfterLastSep (okPayload c s) = intStr c :=
  ⟨build_message_ok c s hs, okPayload_length c s hs, okPayload_suffix c s⟩

/-- C2 witness: counter 7 with size 10. -/
theorem c2_witness :
    (0 : Int) ≤ 7 ∧ ((intStr 7).length : Int) + 1 ≤ 10 ∧
    (build_message 7 10 = Except.ok (okPayload 7 10) ∧
      ((okPayload 7 10).length : Int) = 10 ∧
      suffixAfterLastSep (okPayload 7 10) = intStr 7) :=
  ⟨by decide, by decide,
    c2_build_message_nonneg 7 10 (by decide) (by decide)⟩

/-- C3 (amended): on every exit path on which validation passed (so the
client exists), the session is disconnected exactly once, and background
I/O processing is stopped once plus once more for each `loop_stop` the
connect step itself performed — i.e. exactly twice precisely when
`connect_client` raised a `SystemExit` (timeout or rejection), exactly once
otherwise.  (The original claim fails: on the validation-failure path no
client exists and neither call happens, and on connect-failure paths
`loop_stop` is called twice, see the counterexample.) -/
theorem c3_cleanup_per_path (cfg : Config) (env : Env)
    (hens : ensure_inputs cfg.count cfg.delay cfg.message_size = none) :
    countEv Ev.disconnect (publish_messages cfg env).1 = 1 ∧
    countEv Ev.loopStop (publish_messages cfg env).1 =
      1 + countEv Ev.loopStop (connect_client cfg.host cfg.port env).1 ∧
    countEv Ev.loopStop (connect_client cfg.host cfg.port env).1 ≤ 1 ∧
    (countEv Ev.loopStop (connect_client cfg.host cfg.port env).1 = 1 ↔
      ∃ m, (connect_client cfg.host cfg.port env).2 =
        some (PyExc.systemExit m)) := by
  have hsplit := publish_messages_split cfg env hens
  refine ⟨?_, ?_, countEv_loopStop_connect_le _ _ _,
    countEv_loopStop_connect_eq_one_iff _ _ _⟩
  · rw [hsplit]
    rcases hc2 : (connect_client cfg.host cfg.port env).2 with _ | e
    · rw [runBody_connect_ok cfg env hc2]
      simp [countEv_append, countEv,
        countEv_eq_zero_of_notMem _ _ (disconnect_notMem_connect cfg.host cfg.port env),
        countEv_eq_zero_of_notMem _ _ (burstLoop_disconnect_notMem cfg.topic
          cfg.message_size cfg.delay cfg.count env cfg.count.toNat 0 cfg.start)]
    · rw [runBody_connect_fail cfg env e hc2]
      simp [countEv_append, countEv,
        countEv_eq_zero_of_notMem _ _ (disconnect_notMem_connect cfg.host cfg.port env)]
  · rw [hsplit]
    rcases hc2 : (connect_client cfg.host cfg.port env).2 with _ | e
    · rw [runBody_connect_ok cfg env hc2]
      simp [countEv_append, countEv, connect_client_none_no_stop _ _ _ hc2,
        countEv_eq_zero_of_notMem _ _ (burstLoop_loopStop_notMem cfg.topic
          cfg.message_size cfg.delay cfg.count env cfg.count.toNat 0 cfg.start)]
    · rw [runBody_connect_fail cfg env e hc2]
      simp [countEv_append, countEv]
      omega

/-- C3 witness: on a concrete successful run, one disconnect and one
`loop_stop` (the connect step performed none of its own). -/
theorem c3_witness :
    ensure_inputs (mkCfg 2 1 3).count (mkCfg 2 1 3).delay
      (mkCfg 2 1 3).message_size = none ∧
    countEv Ev.disconnect (publish_messages (mkCfg 2 1 3) envAllOk).1 = 1 ∧
    countEv Ev.loopStop (publish_messages (mkCfg 2 1 3) envAllOk).1 =
      1 + countEv Ev.loopStop
        (connect_client (mkCfg 2 1 3).host (mkCfg 2 1 3).port envAllOk).1 :=
  ⟨by decide, (c3_cleanup_per_path (mkCfg 2 1 3) envAllOk (by decide)).1,
    (c3_cleanup_per_path (mkCfg 2 1 3) envAllOk (by decide)).2.1⟩

/-- C3 counterexample: on the validation-failure exit path (`count = 0`)
the client is never created, so the session is disconnected zero times and
background processing is stopped zero times — refuting "stopped and
disconnected exactly once, never zero times, on every exit path including
validation failure". -/
theorem c3_counterexample :
    (publish_messages (mkCfg 0 1 3) envAllOk).2 =
      some (PyExc.systemExit "Count must be greater than zero.") ∧
    countEv Ev.disconnect (publish_messages (mkCfg 0 1 3) envAllOk).1 = 0 ∧
    countEv Ev.loopStop (publish_messages (mkCfg 0 1 3) envAllOk).1 = 0 := by
  decide

/-- C4 (amended): a `RunConfig` whose message size is too small for the
largest counter is NOT rejected before network activity: `ensure_inputs`
only checks signs, so the run connects, publishes the counters that do fit,
and fails with the MessageTooSmall `SystemExit` at the first counter `j0`
whose encoding does not fit, before submitting that counter: the trace
contains the connection attempt and exactly the payloads for the `j0`
earlier counters. -/
theorem c4_small_size_fails_after_connect (cfg : Config) (env : Env)
    (j0 : Nat)
    (hens : ensure_inputs cfg.count cfg.delay cfg.message_size = none)
    (hconn : connConnected env.arrival = true)
    (hrc : connRc env.arrival = MQTT_ERR_SUCCESS)
    (hint : env.interrupt = none)
    (hj : j0 < cfg.count.toNat)
    (hfits : ∀ j : Nat, j < j0 →
      ((intStr (cfg.start + j)).length : Int) + 1 ≤ cfg.message_size)
    (hok : ∀ j : Nat, j < j0 → env.ackRc j = MQTT_ERR_SUCCESS)
    (hbig : cfg.message_size < ((intStr (cfg.start + j0)).length : Int) + 1) :
    Ev.connectCall cfg.host cfg.port ∈ (main cfg env).1 ∧
    submittedPayloads (main cfg env).1 =
      payloadSeq cfg.message_size j0 cfg.start ∧
    (main cfg env).2 = some (tooSmallMsg
      (((intStr (cfg.start + j0)).length : Int) + 1) cfg.message_size) := by
  have hcs := connect_client_success cfg.host cfg.port env hconn hrc hint
  have hc2 : (connect_client cfg.host cfg.port env).2 = none := by rw [hcs]
  have hrb := runBody_connect_ok cfg env hc2
  have hloop := burstLoop_buildfail_at cfg.topic cfg.message_size cfg.delay
    cfg.count env hint j0 cfg.count.toNat 0 cfg.start hj hfits
    (by intro j hjj; simpa using hok j hjj) hbig
  have hsplit := publish_messages_split cfg env hens
  have hpub2 : (publish_messages cfg env).2 = some (PyExc.systemExit
      (tooSmallMsg (((intStr (cfg.start + j0)).length : Int) + 1)
        cfg.message_size)) := by
    rw [publish_messages_snd cfg env hens, runBody_snd_ok cfg env hc2, hloop.1]
  refine ⟨?_, ?_, main_systemExit cfg env _ hpub2⟩
  · rw [main_fst, hsplit, hrb, hcs]
    simp
  · rw [main_fst, hsplit, hrb]
    simp [submittedPayloads_append, submittedPayloads,
      submittedPayloads_connect, hloop.2]

/-- C4 witness: `count = 1`, `start = 10`, `message_size = 2` with an
immediately successful connection (`j0 = 0`: nothing fits). -/
theorem c4_witness :
    ensure_inputs (mkCfg 1 10 2).count (mkCfg 1 10 2).delay
      (mkCfg 1 10 2).message_size = none ∧
    (0 : Nat) < (mkCfg 1 10 2).count.toNat ∧
    Ev.connectCall hostW 1883 ∈ (main (mkCfg 1 10 2) envAllOk).1 ∧
    submittedPayloads (main (mkCfg 1 10 2) envAllOk).1 = [] :=
  ⟨by decide, by decide,
    (c4_small_size_fails_after_connect (mkCfg 1 10 2) envAllOk 0 (by decide)
      rfl rfl rfl (by decide) (by decide) (by decide) (by decide)).1,
    (c4_small_size_fails_after_connect (mkCfg 1 10 2) envAllOk 0 (by decide)
      rfl rfl rfl (by decide) (by decide) (by decide) (by decide)).2.1⟩

/-- C4 counterexample: with `count = 1`, `start = 10`, `message_size = 2`
(too small for counter 10, which needs 3 bytes), the run is NOT rejected
before network activity: the trace contains a connection attempt, and the
failure is the per-message MessageTooSmall error, not an up-front
rejection. -/
theorem c4_counterexample :
    Ev.connectCall hostW 1883 ∈ (main (mkCfg 1 10 2) envAllOk).1 ∧
    (main (mkCfg 1 10 2) envAllOk).2 = some (tooSmallMsg 3 2) := by
  decide

/-- C5: for every counter `c` and size `s < len(decimal(c)) + 1`,
`build_message c s` fails with the MessageTooSmall error reporting the
minimum size that would have worked, `len(decimal(c)) + 1`; that minimum
does work; and inside the publish loop the failure produces no events at
all — in particular the message is never submitted. -/
theorem c5_build_message_too_small (c s : Int)
    (hs : s < ((intStr c).length : Int) + 1) :
    build_message c s =
      Except.error (tooSmallMsg (((intStr c).length : Int) + 1) s) ∧
    build_message c (((intStr c).length : Int) + 1) =
      Except.ok (okPayload c (((intStr c).length : Int) + 1)) ∧
    ∀ topic delay count env r i,
      burstLoop topic s delay count env (r+1) i c =
        ([], some (PyExc.systemExit
          (tooSmallMsg (((intStr c).length : Int) + 1) s))) :=
  ⟨build_message_err c s hs, build_message_ok c _ (le_refl _),
    fun topic delay count env r i =>
      burstLoop_build_fail topic s delay count env r i c hs⟩

/-- C5 witness: counter 100 with size 2 (minimum reported: 4). -/
theorem c5_witness :
    (2 : Int) < ((intStr 100).length : Int) + 1 ∧
    build_message 100 2 = Except.error (tooSmallMsg 4 2) ∧
    burstLoop topicW 2 0 5 envAllOk 1 0 100 =
      ([], some (PyExc.systemExit (tooSmallMsg 4 2))) :=
  ⟨by decide, (c5_build_message_too_small 100 2 (by decide)).1,
    (c5_build_message_too_small 100 2 (by decide)).2.2 topicW 0 5 envAllOk 0 0⟩

/-- C6 (amended): when the acknowledgment of publish `j0` is the first to
report a non-success result code, the run fails with the PublishFailed
error carrying that result code (but not the counter value — see the
counterexample), and all remaining iterations are aborted: exactly the
payloads for counters `start … start+j0` are submitted, none after. -/
theorem c6_publish_failure_aborts (cfg : Config) (env : Env) (j0 : Nat)
    (hens : ensure_inputs cfg.count cfg.delay cfg.message_size = none)
    (hconn : connConnected env.arrival = true)
    (hrc : connRc env.arrival = MQTT_ERR_SUCCESS)
    (hint : env.interrupt = none)
    (hj : j0 < cfg.count.toNat)
    (hfits : ∀ j : Nat, j ≤ j0 →
      ((intStr (cfg.start + j)).length : Int) + 1 ≤ cfg.message_size)
    (hok : ∀ j : Nat, j < j0 → env.ackRc j = MQTT_ERR_SUCCESS)
    (hfail : env.ackRc j0 ≠ MQTT_ERR_SUCCESS) :
    (main cfg env).2 = some (pubFailMsg (env.ackRc j0)) ∧
    submittedPayloads (main cfg env).1 =
      payloadSeq cfg.message_size (j0 + 1) cfg.start := by
  have hcs := connect_client_success cfg.host cfg.port env hconn hrc hint
  have hc2 : (connect_client cfg.host cfg.port env).2 = none := by rw [hcs]
  have hloop := burstLoop_pubfail cfg.topic cfg.message_size cfg.delay
    cfg.count env hint j0 cfg.count.toNat 0 cfg.start hj hfits
    (by intro j hjj; simpa using hok j hjj) (by simpa using hfail)
  constructor
  · have hpub2 : (publish_messages cfg env).2 =
        some (PyExc.systemExit (pubFailMsg (env.ackRc j0))) := by
      rw [publish_messages_snd cfg env hens, runBody_snd_ok cfg env hc2]
      simpa using hloop.1
    exact main_systemExit cfg env _ hpub2
  · rw [main_fst, publish_messages_split cfg env hens,
      runBody_connect_ok cfg env hc2]
    simp [submittedPayloads_append, submittedPayloads,
      submittedPayloads_connect, hloop.2]

/-- C6 witness: `count = 2`, `start = 1`; the first acknowledgment
succeeds, the second reports result code 1 (`j0 = 1`). -/
theorem c6_witness :
    ensure_inputs (mkCfg 2 1 3).count (mkCfg 2 1 3).delay
      (mkCfg 2 1 3).message_size = none ∧
    (1 : Nat) < (mkCfg 2 1 3).count.toNat ∧
    envAckFail1.ackRc 1 ≠ MQTT_ERR_SUCCESS ∧
    (main (mkCfg 2 1 3) envAckFail1).2 =
      some (pubFailMsg (envAckFail1.ackRc 1)) ∧
    submittedPayloads (main (mkCfg 2 1 3) envAckFail1).1 = payloadSeq 3 2 1 :=
  ⟨by decide, by decide, by decide,
    (c6_publish_failure_aborts (mkCfg 2 1 3) envAckFail1 1 (by decide) rfl rfl
      rfl (by decide) (by decide) (by decide) (by decide)).1,
    (c6_publish_failure_aborts (mkCfg 2 1 3) envAckFail1 1 (by decide) rfl rfl
      rfl (by decide) (by decide) (by decide) (by decide)).2⟩

/-- C6 counterexample: two runs whose failing counters differ (1 in one
run, 5 in the other — visible in the submitted payloads) produce byte-for-
byte identical PublishFailed errors, so the error does not carry the
counter value that failed: the code formats only the result code into the
message. -/
theorem c6_counterexample :
    (main (mkCfg 1 1 3) envPubFail).2 = some (pubFailMsg 1) ∧
    (main (mkCfg 1 5 3) envPubFail).2 = some (pubFailMsg 1) ∧
    submittedPayloads (main (mkCfg 1 1 3) envPubFail).1 = [okPayload 1 3] ∧
    submittedPayloads (main (mkCfg 1 5 3) envPubFail).1 = [okPayload 5 3] ∧
    okPayload 1 3 ≠ okPayload 5 3 := by
  decide

set_option maxRecDepth 4000 in
/-- C7 (amended): if the connect notification never arrives, the wait does
not block indefinitely: it performs exactly `connWindow = 5000 ms / 10 ms`
polls and the run fails with the ConnectTimeout error.  Background I/O
processing is stopped once inside `connect_client` before it raises, and
the run-level `finally` block stops it a second time before the error is
reported (two stop calls in total, not one); the session is disconnected
once. -/
theorem c7_connect_timeout (cfg : Config) (env : Env)
    (hens : ensure_inputs cfg.count cfg.delay cfg.message_size = none)
    (harr : env.arrival = none) (hint : env.interrupt = none) :
    countEv Ev.pollSleep (publish_messages cfg env).1 = connWindow ∧
    connWindow * pollMs = connectTimeoutMs ∧
    (publish_messages cfg env).2 = some (PyExc.systemExit timeoutMsg) ∧
    countEv Ev.loopStop (connect_client cfg.host cfg.port env).1 = 1 ∧
    countEv Ev.loopStop (publish_messages cfg env).1 = 2 ∧
    countEv Ev.disconnect (publish_messages cfg env).1 = 1 := by
  have hct := connect_client_timeout cfg.host cfg.port env harr hint
  have hc2 : (connect_client cfg.host cfg.port env).2 =
      some (PyExc.systemExit timeoutMsg) := by rw [hct]
  have hrb := runBody_connect_fail cfg env _ hc2
  have hsplit := publish_messages_split cfg env hens
  refine ⟨?_, by decide, ?_, ?_, ?_, ?_⟩
  · rw [hsplit, hrb, hct]
    simp [countEv_append, countEv, countEv_replicate]
    try decide
  · rw [publish_messages_snd cfg env hens, hrb, hc2]
  · rw [hct]
    simp [countEv_append, countEv, countEv_replicate]
    try decide
  · rw [hsplit, hrb, hct]
    simp [countEv_append, countEv, countEv_replicate]
    try decide
  · rw [hsplit, hrb, hct]
    simp [countEv_append, countEv, countEv_replicate]
    try decide

/-- C7 witness: a concrete run in which the notification never arrives. -/
theorem c7_witness :
    ensure_inputs (mkCfg 1 1 3).count (mkCfg 1 1 3).delay
      (mkCfg 1 1 3).message_size = none ∧
    envNoConn.arrival = none ∧
    countEv Ev.pollSleep (publish_messages (mkCfg 1 1 3) envNoConn).1 =
      connWindow ∧
    countEv Ev.loopStop (publish_messages (mkCfg 1 1 3) envNoConn).1 = 2 :=
  ⟨by decide, rfl,
    (c7_connect_timeout (mkCfg 1 1 3) envNoConn (by decide) rfl rfl).1,
    (c7_connect_timeout (mkCfg 1 1 3) envNoConn (by decide) rfl rfl).2.2.2.2.1⟩

set_option maxRecDepth 4000 in
/-- C7 counterexample: on the concrete timeout run, background I/O
processing is stopped twice before the error is reported (once by
`connect_client`, once by the `finally` block), not exactly once. -/
theorem c7_counterexample :
    (publish_messages (mkCfg 1 1 3) envNoConn).2 =
      some (PyExc.systemExit timeoutMsg) ∧
    countEv Ev.loopStop (publish_messages (mkCfg 1 1 3) envNoConn).1 = 2 := by
  decide

/-- C8: a `KeyboardInterrupt` arriving during any blocking wait aborts the
run, the cleanup path still executes (one disconnect, one `loop_stop`), and
the outcome is the distinct `Interrupted` message, provably different from
the ConnectTimeout, ConnectRejected and PublishFailed messages for every
result code. -/
theorem c8_interrupt_cleanup (cfg : Config) (env : Env)
    (hens : ensure_inputs cfg.count cfg.delay cfg.message_size = none)
    (hki : (publish_messages cfg env).2 = some PyExc.keyboardInterrupt) :
    (main cfg env).2 = some interruptedMsg ∧
    countEv Ev.disconnect (main cfg env).1 = 1 ∧
    countEv Ev.loopStop (main cfg env).1 = 1 ∧
    interruptedMsg ≠ timeoutMsg ∧
    (∀ rc, interruptedMsg ≠ pubFailMsg rc) ∧
    (∀ rc, interruptedMsg ≠ connRejMsg rc) := by
  have hsplit := publish_messages_split cfg env hens
  have hb2 : (runBody cfg env).2 = some PyExc.keyboardInterrupt := by
    rw [hsplit] at hki; exact hki
  refine ⟨main_ki cfg env hki, ?_, ?_, interruptedMsg_ne_timeoutMsg,
    interruptedMsg_ne_pubFailMsg, interruptedMsg_ne_connRejMsg⟩
  · rw [main_fst, hsplit]
    rcases hc2 : (connect_client cfg.host cfg.port env).2 with _ | e
    · rw [runBody_connect_ok cfg env hc2]
      simp [countEv_append, countEv,
        countEv_eq_zero_of_notMem _ _ (disconnect_notMem_connect cfg.host cfg.port env),
        countEv_eq_zero_of_notMem _ _ (burstLoop_disconnect_notMem cfg.topic
          cfg.message_size cfg.delay cfg.count env cfg.count.toNat 0 cfg.start)]
    · rw [runBody_connect_fail cfg env e hc2]
      simp [countEv_append, countEv,
        countEv_eq_zero_of_notMem _ _ (disconnect_notMem_connect cfg.host cfg.port env)]
  · rw [main_fst, hsplit]
    rcases hc2 : (connect_client cfg.host cfg.port env).2 with _ | e
    · rw [runBody_connect_ok cfg env hc2]
      simp [countEv_append, countEv, connect_client_none_no_stop _ _ _ hc2,
        countEv_eq_zero_of_notMem _ _ (burstLoop_loopStop_notMem cfg.topic
          cfg.message_size cfg.delay cfg.count env cfg.count.toNat 0 cfg.start)]
    · have hrb := runBody_connect_fail cfg env e hc2
      have he : e = PyExc.keyboardInterrupt := by
        rw [hrb, hc2] at hb2
        exact Option.some.inj hb2
      rw [hrb]
      have hstop := connect_client_ki_no_stop cfg.host cfg.port env
        (by rw [hc2, he])
      simp [countEv_append, countEv, hstop]

/-- C8 witness: an interrupt during the wait for the first publish
acknowledgment. -/
theorem c8_witness :
    ensure_inputs (mkCfg 2 1 3).count (mkCfg 2 1 3).delay
      (mkCfg 2 1 3).message_size = none ∧
    (publish_messages (mkCfg 2 1 3) envKI).2 =
      some PyExc.keyboardInterrupt ∧
    (main (mkCfg 2 1 3) envKI).2 = some interruptedMsg ∧
    countEv Ev.disconnect (main (mkCfg 2 1 3) envKI).1 = 1 ∧
    countEv Ev.loopStop (main (mkCfg 2 1 3) envKI).1 = 1 :=
  ⟨by decide, by decide,
    (c8_interrupt_cleanup (mkCfg 2 1 3) envKI (by decide) (by decide)).1,
    (c8_interrupt_cleanup (mkCfg 2 1 3) envKI (by decide) (by decide)).2.1,
    (c8_interrupt_cleanup (mkCfg 2 1 3) envKI (by decide) (by decide)).2.2.1⟩

/-- C9 (amended): the intended scenario requires `message_size = 2` (the
smallest size that fits a single-digit counter): with `count = 5`,
`start = 6`, `message_size = 2`, the single-digit counters 6–9 are
published successfully (four submissions, each acknowledged), and the run
fails with MessageTooSmall reporting minimum size 3 exactly when the
counter reaches the two-digit value 10.  With `message_size = 1` as the
claim states, nothing at all can be published (see the counterexample). -/
theorem c9_amended_scenario :
    (main (mkCfg 5 6 2) envAllOk).2 = some (tooSmallMsg 3 2) ∧
    submittedPayloads (main (mkCfg 5 6 2) envAllOk).1 = payloadSeq 2 4 6 ∧
    pubTrace (main (mkCfg 5 6 2) envAllOk).1 = burstPattern topicW 2 4 6 ∧
    suffixAfterLastSep (okPayload 9 2) = intStr 9 := by
  decide

/-- C9 counterexample: with `count = 5`, `start = 6`, `message_size = 1`
(counters reaching 10), even the single-digit counters need 2 bytes
(digit + separator), so the run fails at the very first counter with
MessageTooSmall reporting minimum size 2 — not 3 — and no message is ever
published. -/
theorem c9_counterexample :
    (main (mkCfg 5 6 1) envAllOk).2 = some (tooSmallMsg 2 1) ∧
    submittedPayloads (main (mkCfg 5 6 1) envAllOk).1 = [] := by
  decide

/-- C10: `build_message` accepts any integer counter, negative ones
included: for every `c : Int` and size `s ≥ len(str(c)) + 1` the payload
has exactly `s` bytes and the substring after the last `':'` is `str(c)`,
minus sign included — the filler `'x'` and the sign `'-'` are both distinct
from the separator `':'`. -/
theorem c10_build_message_any_int (c s : Int)
    (hs : ((intStr c).length : Int) + 1 ≤ s) :
    build_message c s = Except.ok (okPayload c s) ∧
    ((okPayload c s).length : Int) = s ∧
    suffixAfterLastSep (okPayload c s) = intStr c ∧
    'x' ≠ ':' ∧ '-' ≠ ':' :=
  ⟨build_message_ok c s hs, okPayload_length c s hs, okPayload_suffix c s,
    by decide, by decide⟩

/-- C10 witness: the negative counter \-5 with size 4. -/
theorem c10_witness :
    ((intStr (-5)).length : Int) + 1 ≤ 4 ∧
    (build_message (-5) 4 = Except.ok (okPayload (-5) 4) ∧
      ((okPayload (-5) 4).length : Int) = 4 ∧
      suffixAfterLastSep (okPayload (-5) 4) = intStr (-5) ∧
      'x' ≠ ':' ∧ '-' ≠ ':') :=
  ⟨by decide, c10_build_message_any_int (-5) 4 (by decide)⟩

end MqttBurst
